import Mathlib

/-!
A shallow embedding of the open-and-recover core found in
`db/db_impl/db_impl_open.cc`, together with proofs about the behaviors the
specification claims. Pure control flow and state updates are translated
directly from the source. External collaborators (filesystem calls,
`VersionSet::Recover`, `BuildTable`, the log reader internals) are modelled
by their visible effects; fallible collaborator calls are represented by
`Status`-valued parameters so that every code path of the translated
functions remains reachable.
-/

namespace RocksDBModel

/-- Status kinds of `rocksdb::Status` that appear in the open/recover core. -/
inductive StatusCode where
  | ok
  | notFound
  | corruption
  | notSupported
  | invalidArgument
  | ioError
  | aborted
  | busy
deriving DecidableEq, Repr

/-- `rocksdb::Status`: a kind together with its primary message. -/
structure Status where
  code : StatusCode
  msg : String := ""
deriving DecidableEq, Repr

/-- `Status::OK()`. -/
def Status.okStatus : Status := { code := .ok }

/-- `Status::ok()`. -/
def Status.isOk (s : Status) : Bool := s.code == StatusCode.ok

@[simp] theorem Status.isOk_okStatus : Status.okStatus.isOk = true := rfl

theorem Status.isOk_iff (s : Status) : s.isOk = true ↔ s.code = StatusCode.ok := by
  cases s with
  | mk code msg => simp [Status.isOk]

/-- `WALRecoveryMode` (options.h): the four WAL replay policies. -/
inductive WALRecoveryMode where
  | kTolerateCorruptedTailRecords
  | kAbsoluteConsistency
  | kPointInTimeRecovery
  | kSkipAnyCorruptedRecords
deriving DecidableEq, Repr

/-- `kMaxSequenceNumber = ((0x1ull << 56) - 1)` (db/dbformat.h). -/
def kMaxSequenceNumber : Nat := 2 ^ 56 - 1

/-- `WriteBatchInternal::kHeader`: 8-byte sequence plus 4-byte count. -/
def kWriteBatchHeader : Nat := 12

/-! ### Option sanitization: the `max_open_files` clamp (claim C6)

`DBOptions SanitizeOptions(const std::string&, const DBOptions&)`,
lines 52-61 of `db_impl_open.cc`. `port::GetMaxOpenFiles()` is a platform
query; its result is passed in as `osMaxOpenFiles` (`-1` when the platform
reports no limit). -/

/-- `ClipToRange` (util/autovector? actually util/coding-independent helper):
first clip from above by `maxvalue`, then from below by `minvalue`. -/
def ClipToRange (v minvalue maxvalue : Int) : Int :=
  let v1 := if v > maxvalue then maxvalue else v
  if v1 < minvalue then minvalue else v1

/-- The `max_open_files` portion of `SanitizeOptions` (lines 52-61):
`-1` is kept as "infinite"; otherwise the value is clipped to
`[20, max_max_open_files]` where `max_max_open_files` is the platform value,
or `0x400000` when the platform reports `-1`. -/
def sanitizeMaxOpenFiles (maxOpenFiles osMaxOpenFiles : Int) : Int :=
  if maxOpenFiles ≠ -1 then
    let maxMaxOpenFiles := if osMaxOpenFiles = -1 then 0x400000 else osMaxOpenFiles
    ClipToRange maxOpenFiles 20 maxMaxOpenFiles
  else
    maxOpenFiles

/-- The clamp as the claim words it: leave `-1` unchanged, otherwise clamp to
the interval `[20, min(OS_hard_limit, 2^22)]`. Stated from the spec sentence
for comparison with `sanitizeMaxOpenFiles`. -/
def specClampMaxOpenFiles (maxOpenFiles osMaxOpenFiles : Int) : Int :=
  if maxOpenFiles = -1 then maxOpenFiles
  else max 20 (min maxOpenFiles (min osMaxOpenFiles 4194304))

/-! ### Fresh-database bootstrap: `DBImpl::NewDB` (claim C3)

Lines 260-304. The five fallible collaborator steps are the identity-file
write, the manifest-file creation, the edit-record append, the manifest
sync, and the rename-publish of CURRENT; their outcomes are inputs of the
model. -/

/-- Outcomes of the collaborator calls made by `DBImpl::NewDB`. -/
structure NewDBEnv where
  setIdentityFile : Status
  newWritableFile : Status
  addRecord : Status
  syncManifest : Status
  setCurrentFile : Status
deriving DecidableEq, Repr

/-- Result of `DBImpl::NewDB`: the returned status, whether MANIFEST-000001
was created, and whether it was deleted again before returning. -/
structure NewDBResult where
  status : Status
  manifestCreated : Bool
  manifestDeleted : Bool
deriving DecidableEq, Repr

/-- `DBImpl::NewDB` (lines 260-304). Control flow: identity file first;
then manifest creation; then `log.AddRecord(record)` and, only on success,
`SyncManifest`; if that combined status is OK, `SetCurrentFile` publishes
CURRENT, otherwise (and only then) the manifest file is deleted. -/
def NewDB (e : NewDBEnv) : NewDBResult :=
  if ¬e.setIdentityFile.isOk then
    { status := e.setIdentityFile, manifestCreated := false, manifestDeleted := false }
  else if ¬e.newWritableFile.isOk then
    { status := e.newWritableFile, manifestCreated := false, manifestDeleted := false }
  else
    let s := e.addRecord
    let s := if s.isOk then e.syncManifest else s
    if s.isOk then
      { status := e.setCurrentFile, manifestCreated := true, manifestDeleted := false }
    else
      { status := s, manifestCreated := true, manifestDeleted := true }

/-! ### Option validation and the `DB::Open` validation phase (claim C7)

`DBImpl::ValidateOptions` (lines 202-258) and the head of `DBImpl::Open`
(lines 1389-1454). Only the option fields that the validator consults are
modelled. -/

/-- The `DBOptions` fields consulted by `DBImpl::ValidateOptions`. -/
structure DBOptionsModel where
  dbPathsLen : Nat
  allowMmapReads : Bool
  useDirectReads : Bool
  allowMmapWrites : Bool
  useDirectIOForFlushAndCompaction : Bool
  keepLogFileNum : Nat
  unorderedWrite : Bool
  allowConcurrentMemtableWrite : Bool
  enablePipelinedWrite : Bool
  atomicFlush : Bool
deriving DecidableEq, Repr

/-- `DBImpl::ValidateOptions(const DBOptions&)` (lines 216-258), with the
checks in source order. -/
def ValidateDBOptions (o : DBOptionsModel) : Status :=
  if o.dbPathsLen > 4 then
    { code := .notSupported, msg := "More than four DB paths are not supported yet. " }
  else if o.allowMmapReads ∧ o.useDirectReads then
    { code := .notSupported,
      msg := "If memory mapped reads (allow_mmap_reads) are enabled then direct I/O reads (use_direct_reads) must be disabled. " }
  else if o.allowMmapWrites ∧ o.useDirectIOForFlushAndCompaction then
    { code := .notSupported,
      msg := "If memory mapped writes (allow_mmap_writes) are enabled then direct I/O writes (use_direct_io_for_flush_and_compaction) must be disabled. " }
  else if o.keepLogFileNum = 0 then
    { code := .invalidArgument, msg := "keep_log_file_num must be greater than 0" }
  else if o.unorderedWrite ∧ ¬o.allowConcurrentMemtableWrite then
    { code := .invalidArgument,
      msg := "unordered_write is incompatible with !allow_concurrent_memtable_write" }
  else if o.unorderedWrite ∧ o.enablePipelinedWrite then
    { code := .invalidArgument,
      msg := "unordered_write is incompatible with enable_pipelined_write" }
  else if o.atomicFlush ∧ o.enablePipelinedWrite then
    { code := .invalidArgument,
      msg := "atomic_flush is incompatible with enable_pipelined_write" }
  else
    Status.okStatus

/-- `DBImpl::ValidateOptions(const DBOptions&, column_families)` (lines
202-214): per-column-family `ColumnFamilyData::ValidateOptions` first
(external collaborator, its combined outcome is `cfValidate`), then the
`DBOptions` validator. -/
def ValidateOptions (o : DBOptionsModel) (cfValidate : Status) : Status :=
  if ¬cfValidate.isOk then cfValidate else ValidateDBOptions o

/-- Disk mutations performed by the head of `DBImpl::Open` once validation
has passed, in source order (lines 1413-1454). -/
inductive DiskEffect where
  | createWalDir
  | createDataPathDirs
  | createArchivalDir
  | createDbDirAndLock
deriving DecidableEq, Repr

/-- Result of the validation-and-bootstrap head of `DBImpl::Open`. -/
structure OpenValidatePhaseResult where
  status : Status
  effects : List DiskEffect
deriving DecidableEq, Repr

/-- The head of `DBImpl::Open` (lines 1393-1454): `SanitizeOptionsByTable`
(external table factories, outcome `sanitizeByTable`), then
`ValidateOptions`, and only after both succeed the first disk mutations
(`CreateDirIfMissing` on the WAL dir and the data paths, the archival
directory, and `Recover`'s directory setup and `LockFile`). -/
def dbOpenValidatePhase (o : DBOptionsModel) (sanitizeByTable cfValidate : Status) :
    OpenValidatePhaseResult :=
  if ¬sanitizeByTable.isOk then
    { status := sanitizeByTable, effects := [] }
  else
    let s := ValidateOptions o cfValidate
    if ¬s.isOk then
      { status := s, effects := [] }
    else
      { status := Status.okStatus,
        effects := [.createWalDir, .createDataPathDirs, .createArchivalDir,
                    .createDbDirAndLock] }

/-! ### WAL replay: `DBImpl::RecoverLogFiles` (lines 687-1129)

The replay loop is translated with its state held in `RecoveryState`.
Modelling conventions, each marked at its use site:
- the log reader (`log::Reader`, external) delivers a stream of `WalItem`s:
  well-formed framed records, and corrupt byte stretches that it reports
  through `LogReporter::Corruption` and drops;
- `WriteBatchInternal::InsertInto` is translated as `insertInto`
  (apply each update to its column family's memtable unless the family is
  missing or was already flushed past this log, advancing the sequence
  cursor per update) and always succeeds;
- the flush scheduler never flags a memtable as full, and
  `avoid_flush_during_recovery` is in effect, so the external `BuildTable`
  collaborator of `WriteLevel0TableForRecovery` is never invoked;
- `versions_->LogAndApply` at line 1115 (external) succeeds;
- a `return status` executed inside `RecoverLogFiles` is modelled by the
  `hardExit` flag, which freezes the state for the remaining steps. -/

/-- One committed `WriteBatch` as recovery sees it: the framed record size,
the starting sequence number stored in its header, and its updates as
(column family id, key) pairs. `WriteBatchInternal::Count` is the number of
updates. -/
structure WriteBatch where
  size : Nat
  sequence : Nat
  writes : List (Nat × Nat)
deriving DecidableEq, Repr

/-- `WriteBatchInternal::Count`. -/
def WriteBatch.count (b : WriteBatch) : Nat := b.writes.length

/-- A column family as the replay loop sees it: its id, its `log_number`
recovered from the manifest, and its memtable contents as (key, sequence)
entries. -/
structure ColumnFamilyData where
  id : Nat
  logNumber : Nat
  mem : List (Nat × Nat)
deriving DecidableEq, Repr

/-- `ColumnFamilyData::CreateNewMemtable`: the memtable is replaced by a
fresh empty one. -/
def ColumnFamilyData.createNewMemtable (cf : ColumnFamilyData) : ColumnFamilyData :=
  { cf with mem := [] }

/-- What the log reader delivers from one WAL file: either a well-formed
framed record, or a corrupt stretch of bytes that it reports through
`LogReporter::Corruption` and skips. -/
inductive WalItem where
  | record (batch : WriteBatch)
  | corruptChunk (bytes : Nat)
deriving DecidableEq, Repr

/-- `WalFilter::WalProcessingOption`. -/
inductive WalProcessingOption where
  | kContinueProcessing
  | kIgnoreCurrentRecord
  | kStopReplay
  | kCorruptedRecord
deriving DecidableEq, Repr

/-- A user-supplied `WalFilter`: `LogRecordFound(log_number, batch)` returns
the processing option, the replacement batch, and the `batch_changed`
flag. -/
structure WalFilter where
  name : String
  logRecordFound : Nat → WriteBatch → WalProcessingOption × WriteBatch × Bool

/-- The `ImmutableDBOptions` fields consulted by `RecoverLogFiles`. -/
structure ImmutableDBOptions where
  walRecoveryMode : WALRecoveryMode
  paranoidChecks : Bool
  walFilter : Option WalFilter := none

/-- State threaded through `RecoverLogFiles`: the local variables of the
function (lines 707, 743-746) plus the pieces of engine state it updates
(`versions_` sequence/file-number bookkeeping and the column families). -/
structure RecoveryState where
  status : Status := Status.okStatus
  hardExit : Bool := false
  stopReplayByWalFilter : Bool := false
  stopReplayForCorruption : Bool := false
  corruptedLogFound : Bool := false
  corruptedLogNumber : Nat := kMaxSequenceNumber
  nextSequence : Nat := kMaxSequenceNumber
  cfs : List ColumnFamilyData
  markedFileNumbers : List Nat := []
  lastSequence : Nat
deriving Repr

/-- The state `DBImpl::Recover` starts replay from: `status` OK, all flags
clear, `next_sequence = kMaxSequenceNumber` (line 489). -/
def initialRecoveryState (cfs : List ColumnFamilyData) (lastSequence : Nat) :
    RecoveryState :=
  { cfs := cfs, lastSequence := lastSequence }

/-- Line 804-810: the reporter's status pointer is wired to the recovery
status only when `paranoid_checks` is set and the mode is not
`kSkipAnyCorruptedRecords`; otherwise corruption reports are ignored. -/
def reporterStatusWired (opts : ImmutableDBOptions) : Bool :=
  opts.paranoidChecks && !(opts.walRecoveryMode == WALRecoveryMode.kSkipAnyCorruptedRecords)

/-- `LogReporter::Corruption` (lines 696-703): record the status only when
the pointer is wired and no earlier error is pending. -/
def reporterCorruption (wired : Bool) (s : Status) (st : RecoveryState) : RecoveryState :=
  if wired ∧ st.status.isOk then { st with status := s } else st

/-- One update of `WriteBatchInternal::InsertInto`: apply (cf, key) at the
given sequence to the matching column family's memtable unless the family
is missing or its `log_number` exceeds the log being replayed (it was
already flushed past this log; `MemTableInserter::SeekToColumnFamily`). -/
def applyWrite (logNumber seq : Nat) (cfs : List ColumnFamilyData) (w : Nat × Nat) :
    List ColumnFamilyData :=
  cfs.map fun cf =>
    if cf.id = w.1 ∧ cf.logNumber ≤ logNumber then
      { cf with mem := cf.mem ++ [(w.2, seq)] }
    else cf

/-- The update loop of `WriteBatchInternal::InsertInto`: the sequence cursor
advances once per update whether or not the update was applied. -/
def insertIntoGo (logNumber : Nat) :
    List (Nat × Nat) → Nat → List ColumnFamilyData → List ColumnFamilyData × Nat
  | [], seq, cfs => (cfs, seq)
  | w :: ws, seq, cfs => insertIntoGo logNumber ws (seq + 1) (applyWrite logNumber seq cfs w)

/-- `WriteBatchInternal::InsertInto(&batch, ..., log_number, ...,
&next_sequence, ...)` (lines 935-939): returns the updated column families
and the new value of `*next_sequence`. Modelled as always returning OK. -/
def insertInto (batch : WriteBatch) (logNumber : Nat) (cfs : List ColumnFamilyData) :
    List ColumnFamilyData × Nat :=
  insertIntoGo logNumber batch.writes batch.sequence cfs

/-- What the filter block decides to do with the current record. -/
inductive FilterStep where
  | abortReplay (s : Status)
  | applyBatch (b : WriteBatch)
  | skipRecord
  | skipAndStop
  | corruptRecord (s : Status)

/-- Lines 898-925: when `batch_changed`, a replacement batch with more
updates than the original aborts recovery with `NotSupported`; otherwise
the replacement's sequence number is overwritten with the original batch's
sequence number. When unchanged, the original batch is used. -/
def rewriteOrKeepBatch (filterName : String) (b newBatch : WriteBatch)
    (batchChanged : Bool) : FilterStep :=
  if batchChanged then
    if newBatch.count > b.count then
      .abortReplay
        { code := .notSupported,
          msg := "More than original # of records returned by Wal Filter " ++ filterName }
    else
      .applyBatch { newBatch with sequence := b.sequence }
  else
    .applyBatch b

/-- The `WalFilter` block (lines 852-926): dispatch on `LogRecordFound`'s
option. For `kCorruptedRecord` the synthesized corruption survives
`MaybeIgnoreError` only under `paranoid_checks`; otherwise processing falls
through to the rewrite check like `kContinueProcessing`. -/
def walFilterStep (opts : ImmutableDBOptions) (f : WalFilter) (logNumber : Nat)
    (b : WriteBatch) : FilterStep :=
  let fr := f.logRecordFound logNumber b
  match fr.1 with
  | .kContinueProcessing => rewriteOrKeepBatch f.name b fr.2.1 fr.2.2
  | .kIgnoreCurrentRecord => .skipRecord
  | .kStopReplay => .skipAndStop
  | .kCorruptedRecord =>
      if opts.paranoidChecks then
        .corruptRecord
          { code := .corruption, msg := "Corruption reported by Wal Filter " ++ f.name }
      else
        rewriteOrKeepBatch f.name b fr.2.1 fr.2.2

/-- Lines 836-844: in `kPointInTimeRecovery`, a record whose sequence
equals `*next_sequence` clears the stop-for-corruption flag (the sequence
stream is contiguous across the earlier corruption). -/
def pitContiguityCheck (opts : ImmutableDBOptions) (b : WriteBatch)
    (st : RecoveryState) : RecoveryState :=
  if opts.walRecoveryMode = WALRecoveryMode.kPointInTimeRecovery ∧
      b.sequence = st.nextSequence then
    { st with stopReplayForCorruption := false }
  else st

/-- The record-reading loop of one WAL file (lines 824-973). The loop
condition re-checks `stop_replay_by_wal_filter` and `status.ok()` before
every record; records smaller than the `WriteBatch` header are reported as
corruption; in `kPointInTimeRecovery` a record whose sequence equals
`next_sequence` clears the stop-for-corruption flag, and while the flag is
set the rest of the file is dropped (`break`, lines 845-848). The
incremental flush of full memtables (lines 948-972) is never triggered
under the modelling conventions above. -/
def readLoop (opts : ImmutableDBOptions) (logNumber : Nat) (wired : Bool) :
    List WalItem → RecoveryState → RecoveryState
  | [], st => st
  | item :: rest, st =>
    if st.stopReplayByWalFilter || !st.status.isOk then st
    else
      match item with
      | .corruptChunk _ =>
          readLoop opts logNumber wired rest
            (reporterCorruption wired { code := .corruption, msg := "error in middle of record" } st)
      | .record b =>
          if b.size < kWriteBatchHeader then
            readLoop opts logNumber wired rest
              (reporterCorruption wired { code := .corruption, msg := "log record too small" } st)
          else
            if opts.walRecoveryMode = WALRecoveryMode.kPointInTimeRecovery ∧
                (pitContiguityCheck opts b st).stopReplayForCorruption then
              pitContiguityCheck opts b st
            else
              match opts.walFilter with
              | none =>
                  readLoop opts logNumber wired rest
                    { pitContiguityCheck opts b st with
                      cfs := (insertInto b logNumber (pitContiguityCheck opts b st).cfs).1,
                      nextSequence := (insertInto b logNumber (pitContiguityCheck opts b st).cfs).2 }
              | some f =>
                  match walFilterStep opts f logNumber b with
                  | .abortReplay s =>
                      { pitContiguityCheck opts b st with status := s, hardExit := true }
                  | .skipRecord =>
                      readLoop opts logNumber wired rest (pitContiguityCheck opts b st)
                  | .skipAndStop =>
                      readLoop opts logNumber wired rest
                        { pitContiguityCheck opts b st with stopReplayByWalFilter := true }
                  | .corruptRecord s =>
                      readLoop opts logNumber wired rest
                        { pitContiguityCheck opts b st with status := s }
                  | .applyBatch b2 =>
                      readLoop opts logNumber wired rest
                        { pitContiguityCheck opts b st with
                          cfs := (insertInto b2 logNumber (pitContiguityCheck opts b st).cfs).1,
                          nextSequence := (insertInto b2 logNumber (pitContiguityCheck opts b st).cfs).2 }

/-- The per-file status policy after the read loop (lines 975-1006):
`NotSupported` is returned as-is; `kSkipAnyCorruptedRecords` clears the
error; `kPointInTimeRecovery` clears the error, stops further replay and
remembers the corrupted log; the two strict modes return the error. -/
def afterFileStatusPolicy (opts : ImmutableDBOptions) (logNumber : Nat)
    (st : RecoveryState) : RecoveryState :=
  if st.status.isOk then st
  else if st.status.code = StatusCode.notSupported then { st with hardExit := true }
  else
    match opts.walRecoveryMode with
    | .kSkipAnyCorruptedRecords => { st with status := Status.okStatus }
    | .kPointInTimeRecovery =>
        { st with status := Status.okStatus, stopReplayForCorruption := true,
                  corruptedLogNumber := logNumber, corruptedLogFound := true }
    | _ => { st with hardExit := true }

/-- Lines 1008-1016: after each file, publish `*next_sequence - 1` as the
last sequence when any record was applied and it moved forward. -/
def updateLastSequence (st : RecoveryState) : RecoveryState :=
  if st.nextSequence ≠ kMaxSequenceNumber ∧ st.lastSequence ≤ st.nextSequence - 1 then
    { st with lastSequence := st.nextSequence - 1 }
  else st

/-- `versions_->MarkFileNumberUsed(log_number)` (line 759), recorded as an
append to the list of marked file numbers. -/
def markCurrentLog (logNumber : Nat) (st : RecoveryState) : RecoveryState :=
  { st with markedFileNumbers := st.markedFileNumbers ++ [logNumber] }

/-- The per-file steps after the read loop: a pending `return` freezes the
state; otherwise the status policy runs and, unless it issued a `return`
itself, the last sequence is published. -/
def afterLoopSteps (opts : ImmutableDBOptions) (logNumber : Nat)
    (st : RecoveryState) : RecoveryState :=
  if st.hardExit then st
  else if (afterFileStatusPolicy opts logNumber st).hardExit then
    afterFileStatusPolicy opts logNumber st
  else
    updateLastSequence (afterFileStatusPolicy opts logNumber st)

/-- One iteration of the outer loop over WAL numbers (lines 748-1016):
skip files older than `min_log_number` (lines 749-755), call
`MarkFileNumberUsed` on the file about to be replayed (line 759), drop the
file when a filter already stopped replay (lines 774-777), then run the
read loop and the per-file status policy. A pending `return` (`hardExit`)
freezes the state. -/
def recoverSingleLog (opts : ImmutableDBOptions) (minLogNumber : Nat)
    (log : Nat × List WalItem) (st : RecoveryState) : RecoveryState :=
  if st.hardExit then st
  else if log.1 < minLogNumber then st
  else if (markCurrentLog log.1 st).stopReplayByWalFilter then markCurrentLog log.1 st
  else
    afterLoopSteps opts log.1
      (readLoop opts log.1 (reporterStatusWired opts) log.2 (markCurrentLog log.1 st))

/-- The outer loop over all WAL files in ascending number order. -/
def recoverAllLogs (opts : ImmutableDBOptions) (minLogNumber : Nat)
    (logs : List (Nat × List WalItem)) (st : RecoveryState) : RecoveryState :=
  logs.foldl (fun s l => recoverSingleLog opts minLogNumber l s) st

/-- `Status::Corruption("SST file is ahead of WALs")` (line 1036). -/
def corruptionAheadStatus : Status :=
  { code := .corruption, msg := "SST file is ahead of WALs" }

/-- The post-replay cross-check (lines 1026-1039): when replay stopped for a
corruption in `kPointInTimeRecovery` or `kTolerateCorruptedTailRecords`
mode, abort with `Corruption("SST file is ahead of WALs")` when any column
family's `log_number` exceeds the corrupted log's number. -/
def postWalCrossCheck (opts : ImmutableDBOptions) (st : RecoveryState) : RecoveryState :=
  if st.stopReplayForCorruption = true ∧
      (opts.walRecoveryMode = WALRecoveryMode.kPointInTimeRecovery ∨
       opts.walRecoveryMode = WALRecoveryMode.kTolerateCorruptedTailRecords) then
    if st.cfs.any fun cf => st.corruptedLogNumber < cf.logNumber then
      { st with status := corruptionAheadStatus, hardExit := true }
    else st
  else st

/-- The tail of `RecoverLogFiles` for a read-write open (lines 1044-1119),
under the modelling conventions: the final flush never runs
(`avoid_flush_during_recovery` with no mid-replay flush), and when the
status is still OK, `MarkFileNumberUsed(max_log_number + 1)` is called
(line 1102) and the batched `LogAndApply` (external) succeeds. -/
def finalizeRecovery (logNumbers : List Nat) (st : RecoveryState) : RecoveryState :=
  if st.hardExit then st
  else
    match logNumbers.getLast? with
    | none => st
    | some maxLogNumber =>
        if st.status.isOk then
          { st with markedFileNumbers := st.markedFileNumbers ++ [maxLogNumber + 1] }
        else st

/-- `DBImpl::RecoverLogFiles` (lines 687-1129) for a read-write open:
the outer loop over the files, then — unless a `return` already fired —
the cross-check and the finalization. -/
def RecoverLogFiles (opts : ImmutableDBOptions) (minLogNumber : Nat)
    (logs : List (Nat × List WalItem)) (st : RecoveryState) : RecoveryState :=
  if (recoverAllLogs opts minLogNumber logs st).hardExit then
    recoverAllLogs opts minLogNumber logs st
  else
    finalizeRecovery (logs.map Prod.fst)
      (postWalCrossCheck opts (recoverAllLogs opts minLogNumber logs st))

/-! ### `DBImpl::Recover` (WAL portion, lines 551-567) and the go-live
dummy write of `DBImpl::Open` (lines 1451-1534, claims C1 and C9). -/

/-- Result of the WAL-replay portion of `DBImpl::Recover`. -/
structure RecoverResult where
  status : Status
  cfs : List ColumnFamilyData
  recoveredSeq : Nat
deriving Repr

/-- The WAL-replay portion of `DBImpl::Recover` (lines 551-567). The earlier
phases (directories, lock, `NewDB`, `VersionSet::Recover`) are external or
proved elsewhere and are taken as having succeeded; `logs` is the sorted
list of discovered WAL files. `*recovered_seq` (initialized to
`kMaxSequenceNumber` by `Open`, line 1453) is overwritten with
`next_sequence` only when a corrupted log was found; when replay fails,
every column family's memtable is replaced by a fresh one before the error
is returned. -/
def Recover (opts : ImmutableDBOptions) (minLogNumber : Nat)
    (logs : List (Nat × List WalItem)) (cfs : List ColumnFamilyData)
    (lastSequence : Nat) : RecoverResult :=
  if logs.isEmpty then
    { status := Status.okStatus, cfs := cfs, recoveredSeq := kMaxSequenceNumber }
  else if (RecoverLogFiles opts minLogNumber logs
      (initialRecoveryState cfs lastSequence)).status.isOk then
    { status := (RecoverLogFiles opts minLogNumber logs
        (initialRecoveryState cfs lastSequence)).status
      cfs := (RecoverLogFiles opts minLogNumber logs
        (initialRecoveryState cfs lastSequence)).cfs
      recoveredSeq :=
        if (RecoverLogFiles opts minLogNumber logs
            (initialRecoveryState cfs lastSequence)).corruptedLogFound then
          (RecoverLogFiles opts minLogNumber logs
            (initialRecoveryState cfs lastSequence)).nextSequence
        else kMaxSequenceNumber }
  else
    { status := (RecoverLogFiles opts minLogNumber logs
        (initialRecoveryState cfs lastSequence)).status
      cfs := ((RecoverLogFiles opts minLogNumber logs
        (initialRecoveryState cfs lastSequence)).cfs).map
          ColumnFamilyData.createNewMemtable
      recoveredSeq :=
        if (RecoverLogFiles opts minLogNumber logs
            (initialRecoveryState cfs lastSequence)).corruptedLogFound then
          (RecoverLogFiles opts minLogNumber logs
            (initialRecoveryState cfs lastSequence)).nextSequence
        else kMaxSequenceNumber }

/-- Observable result of `DBImpl::Open`'s recovery-and-go-live sequence. -/
structure OpenResult where
  status : Status
  cfs : List ColumnFamilyData
  dummyBatchWritten : Bool
  dummyBatchSequence : Nat
deriving Repr

/-- `DBImpl::Open`, lines 1451-1534: `Recover`, then (with `CreateWAL`, the
handle binding and the super-version installation — all external —
succeeding) the go-live dummy write: when `recovered_seq` differs from
`kMaxSequenceNumber`, an empty `WriteBatch` whose sequence is set to
`recovered_seq` is written to the new WAL (lines 1526-1533). -/
def OpenRecoverAndGoLive (opts : ImmutableDBOptions) (minLogNumber : Nat)
    (logs : List (Nat × List WalItem)) (cfs : List ColumnFamilyData)
    (lastSequence : Nat) : OpenResult :=
  if ¬(Recover opts minLogNumber logs cfs lastSequence).status.isOk then
    { status := (Recover opts minLogNumber logs cfs lastSequence).status
      cfs := (Recover opts minLogNumber logs cfs lastSequence).cfs
      dummyBatchWritten := false
      dummyBatchSequence := 0 }
  else if (Recover opts minLogNumber logs cfs lastSequence).recoveredSeq ≠
      kMaxSequenceNumber then
    { status := (Recover opts minLogNumber logs cfs lastSequence).status
      cfs := (Recover opts minLogNumber logs cfs lastSequence).cfs
      dummyBatchWritten := true
      dummyBatchSequence := (Recover opts minLogNumber logs cfs lastSequence).recoveredSeq }
  else
    { status := (Recover opts minLogNumber logs cfs lastSequence).status
      cfs := (Recover opts minLogNumber logs cfs lastSequence).cfs
      dummyBatchWritten := false
      dummyBatchSequence := 0 }

/-! ### Shared helper lemmas -/

theorem clearStopFlag_self (st : RecoveryState) (h : st.stopReplayForCorruption = false) :
    { st with stopReplayForCorruption := false } = st := by
  cases st
  simp_all

theorem pitContiguityCheck_of_flag_false (opts : ImmutableDBOptions) (b : WriteBatch)
    (st : RecoveryState) (h : st.stopReplayForCorruption = false) :
    pitContiguityCheck opts b st = st := by
  unfold pitContiguityCheck
  split
  · exact clearStopFlag_self st h
  · rfl

theorem reporterCorruption_unwired (s : Status) (st : RecoveryState) :
    reporterCorruption false s st = st := by
  simp [reporterCorruption]

theorem reporterCorruption_markedFileNumbers (wired : Bool) (s : Status)
    (st : RecoveryState) :
    (reporterCorruption wired s st).markedFileNumbers = st.markedFileNumbers := by
  unfold reporterCorruption
  split <;> rfl

theorem pitContiguityCheck_markedFileNumbers (opts : ImmutableDBOptions) (b : WriteBatch)
    (st : RecoveryState) :
    (pitContiguityCheck opts b st).markedFileNumbers = st.markedFileNumbers := by
  unfold pitContiguityCheck
  split <;> rfl

theorem readLoop_markedFileNumbers (opts : ImmutableDBOptions) (logNumber : Nat)
    (wired : Bool) :
    ∀ (items : List WalItem) (st : RecoveryState),
      (readLoop opts logNumber wired items st).markedFileNumbers = st.markedFileNumbers := by
  intro items
  induction items with
  | nil => intro st; rfl
  | cons item rest ih =>
    intro st
    simp only [readLoop]
    repeat' split
    all_goals
      simp only [ih, reporterCorruption_markedFileNumbers,
        pitContiguityCheck_markedFileNumbers]

theorem afterFileStatusPolicy_markedFileNumbers (opts : ImmutableDBOptions)
    (logNumber : Nat) (st : RecoveryState) :
    (afterFileStatusPolicy opts logNumber st).markedFileNumbers = st.markedFileNumbers := by
  unfold afterFileStatusPolicy
  split
  · rfl
  · split
    · rfl
    · split <;> rfl

theorem updateLastSequence_markedFileNumbers (st : RecoveryState) :
    (updateLastSequence st).markedFileNumbers = st.markedFileNumbers := by
  unfold updateLastSequence
  split <;> rfl

/-! ### Claim C6: the `max_open_files` clamp -/

/-- C6 counterexample: with the platform hard limit at `2^22 + 1`, the code
keeps `max_open_files = 2^22 + 1` — it clips to `[20, OS_hard_limit]`, not
to `[20, min(OS_hard_limit, 2^22)]` as the claim states, so the claimed
clamp (`specClampMaxOpenFiles`) disagrees with the code at this input. -/
theorem C6_counterexample :
    sanitizeMaxOpenFiles 4194305 4194305 = 4194305 ∧
    specClampMaxOpenFiles 4194305 4194305 = 4194304 ∧
    sanitizeMaxOpenFiles 4194305 4194305 ≠ specClampMaxOpenFiles 4194305 4194305 := by
  refine ⟨by decide, by decide, by decide⟩

/-- C6 (amended): sanitization leaves `max_open_files = -1` unchanged;
otherwise it clips the value to `[20, OS_hard_limit]` when the platform
reports a hard limit, and to `[20, 2^22]` only when the platform reports
none (`-1`); in particular, when the platform reports a hard limit of at
least 20, the result lies in `[20, OS_hard_limit]`. -/
theorem C6_max_open_files_amended (mof hard : Int) :
    (mof = -1 → sanitizeMaxOpenFiles mof hard = mof) ∧
    (mof ≠ -1 → hard ≠ -1 → sanitizeMaxOpenFiles mof hard = ClipToRange mof 20 hard) ∧
    (mof ≠ -1 → hard = -1 → sanitizeMaxOpenFiles mof hard = ClipToRange mof 20 4194304) ∧
    (mof ≠ -1 → 20 ≤ hard →
      20 ≤ sanitizeMaxOpenFiles mof hard ∧ sanitizeMaxOpenFiles mof hard ≤ hard) := by
  refine ⟨fun h => by simp [sanitizeMaxOpenFiles, h], fun h hh => by
    simp [sanitizeMaxOpenFiles, h, hh], fun h hh => by
    simp [sanitizeMaxOpenFiles, h, hh], fun h hh => ?_⟩
  have hne : hard ≠ -1 := by omega
  simp only [sanitizeMaxOpenFiles, if_pos h, if_neg hne]
  simp only [ClipToRange]
  constructor <;> (repeat' split) <;> omega

/-- C6 witness: the amended clamp evaluated at `max_open_files = 100` with
a platform hard limit of 50. -/
theorem C6_witness :
    20 ≤ sanitizeMaxOpenFiles 100 50 ∧ sanitizeMaxOpenFiles 100 50 ≤ 50 :=
  (C6_max_open_files_amended 100 50).2.2.2 (by decide) (by decide)

/-! ### Claim C3: manifest cleanup in `NewDB` -/

/-- A `NewDB` run in which every step up to and including the manifest sync
succeeds and only the rename-publish of CURRENT fails. -/
def c3Env : NewDBEnv :=
  { setIdentityFile := Status.okStatus
    newWritableFile := Status.okStatus
    addRecord := Status.okStatus
    syncManifest := Status.okStatus
    setCurrentFile := { code := .ioError, msg := "rename failed" } }

/-- C3 counterexample: when `SetCurrentFile` (the rename-publish of the
CURRENT pointer) fails after the manifest was created and synced, `NewDB`
returns the error but does not delete the manifest — deletion happens only
when the edit-record write or the manifest sync fails, contradicting the
claim that a failure of any step including CURRENT publication deletes the
half-written MANIFEST. -/
theorem C3_counterexample :
    (NewDB c3Env).status.isOk = false ∧
    (NewDB c3Env).manifestCreated = true ∧
    (NewDB c3Env).manifestDeleted = false := by
  refine ⟨by decide, by decide, by decide⟩

/-- C3 (amended): `NewDB` deletes the manifest exactly when it was created
and then writing the edit record or syncing the manifest failed; when those
succeed and only the CURRENT rename-publish fails, the error is returned
with the manifest left in place. -/
theorem C3_newdb_cleanup_amended (e : NewDBEnv) :
    ((NewDB e).manifestDeleted = true ↔
      (e.setIdentityFile.isOk = true ∧ e.newWritableFile.isOk = true ∧
        ¬(e.addRecord.isOk = true ∧ e.syncManifest.isOk = true))) ∧
    (e.setIdentityFile.isOk = true → e.newWritableFile.isOk = true →
      e.addRecord.isOk = true → e.syncManifest.isOk = true →
      (NewDB e).status = e.setCurrentFile ∧ (NewDB e).manifestCreated = true ∧
        (NewDB e).manifestDeleted = false) := by
  unfold NewDB
  cases h1 : e.setIdentityFile.isOk <;> cases h2 : e.newWritableFile.isOk <;>
    cases h3 : e.addRecord.isOk <;> cases h4 : e.syncManifest.isOk <;>
      simp [h1, h2, h3, h4]

/-- C3 witness: the amended cleanup rule applied to the run in which only
`SetCurrentFile` fails. -/
theorem C3_witness :
    (NewDB c3Env).status = c3Env.setCurrentFile ∧ (NewDB c3Env).manifestCreated = true ∧
      (NewDB c3Env).manifestDeleted = false :=
  (C3_newdb_cleanup_amended c3Env).2 (by decide) (by decide) (by decide) (by decide)

/-! ### Claim C7: mmap-reads plus direct-reads fails before disk mutation -/

/-- C7 (confirmed): when `allow_mmap_reads` and `use_direct_reads` are both
set, the head of `DB::Open` fails before performing any disk mutation (no
directory is created and the database lock is never taken), and — provided
the external table-factory sanitization and per-column-family validation
report no earlier error — the returned status kind is `NotSupported`. -/
theorem C7_open_mmap_direct_reads (o : DBOptionsModel) (ts cfv : Status)
    (hm : o.allowMmapReads = true) (hd : o.useDirectReads = true) :
    (dbOpenValidatePhase o ts cfv).effects = [] ∧
    (dbOpenValidatePhase o ts cfv).status.isOk = false ∧
    (ts.isOk = true → cfv.isOk = true →
      (dbOpenValidatePhase o ts cfv).status.code = StatusCode.notSupported) := by
  unfold dbOpenValidatePhase ValidateOptions ValidateDBOptions
  cases hts : ts.isOk <;> cases hcfv : cfv.isOk <;>
    simp_all [Status.isOk_iff] <;>
      (split <;> simp_all [Status.isOk, Status.okStatus])

/-- A concrete options record with both `allow_mmap_reads` and
`use_direct_reads` set and every other validated field well-formed. -/
def c7Opts : DBOptionsModel :=
  { dbPathsLen := 1
    allowMmapReads := true
    useDirectReads := true
    allowMmapWrites := false
    useDirectIOForFlushAndCompaction := false
    keepLogFileNum := 1000
    unorderedWrite := false
    allowConcurrentMemtableWrite := true
    enablePipelinedWrite := false
    atomicFlush := false }

/-- C7 witness: the theorem evaluated with both flags set and the external
checks succeeding. -/
theorem C7_witness :
    (dbOpenValidatePhase c7Opts Status.okStatus Status.okStatus).effects = [] ∧
    (dbOpenValidatePhase c7Opts Status.okStatus Status.okStatus).status.isOk = false ∧
    (Status.okStatus.isOk = true → Status.okStatus.isOk = true →
      (dbOpenValidatePhase c7Opts Status.okStatus Status.okStatus).status.code =
        StatusCode.notSupported) :=
  C7_open_mmap_direct_reads c7Opts Status.okStatus Status.okStatus rfl rfl

/-! ### Claim C4: the "SST file is ahead of WALs" cross-check -/

/-- C4 (confirmed): after the loop over all WALs, when replay stopped for a
corruption and the mode is `kPointInTimeRecovery` or
`kTolerateCorruptedTailRecords`, the cross-check ends recovery with
`Corruption("SST file is ahead of WALs")` exactly when some column family's
`log_number` is strictly greater than the corrupted log's number; when no
column family is past the corruption point the state passes through
unchanged. -/
theorem C4_sst_ahead_cross_check (opts : ImmutableDBOptions) (st : RecoveryState)
    (hstop : st.stopReplayForCorruption = true)
    (hmode : opts.walRecoveryMode = WALRecoveryMode.kPointInTimeRecovery ∨
             opts.walRecoveryMode = WALRecoveryMode.kTolerateCorruptedTailRecords)
    (hok : st.status.isOk = true) :
    ((postWalCrossCheck opts st).status = corruptionAheadStatus ↔
        ∃ cf ∈ st.cfs, st.corruptedLogNumber < cf.logNumber) ∧
    ((∀ cf ∈ st.cfs, cf.logNumber ≤ st.corruptedLogNumber) →
      postWalCrossCheck opts st = st) := by
  have hne : st.status ≠ corruptionAheadStatus := by
    intro heq
    rw [heq] at hok
    exact absurd hok (by decide)
  unfold postWalCrossCheck
  rw [if_pos ⟨hstop, hmode⟩]
  by_cases hany : (st.cfs.any fun cf => st.corruptedLogNumber < cf.logNumber) = true
  · rw [if_pos hany]
    simp only [List.any_eq_true, decide_eq_true_eq] at hany
    constructor
    · simpa using hany
    · intro hall
      obtain ⟨cf, hcf, hlt⟩ := hany
      exact absurd (hall cf hcf) (by omega)
  · rw [if_neg hany]
    simp only [List.any_eq_true, decide_eq_true_eq] at hany
    constructor
    · simp [hne, hany]
    · intro _
      rfl

/-- Options and a post-loop state for the C4 witness: PIT mode, replay
stopped at corrupted log 4, one column family flushed to log 7. -/
def c4Opts : ImmutableDBOptions :=
  { walRecoveryMode := .kPointInTimeRecovery, paranoidChecks := true }

def c4State : RecoveryState :=
  { stopReplayForCorruption := true, corruptedLogNumber := 4,
    cfs := [⟨0, 7, []⟩], lastSequence := 0 }

/-- C4 witness: the cross-check fired at a state whose single column family
has `log_number = 7 > 4 = corrupted_log_number`. -/
theorem C4_witness :
    ((postWalCrossCheck c4Opts c4State).status = corruptionAheadStatus ↔
        ∃ cf ∈ c4State.cfs, c4State.corruptedLogNumber < cf.logNumber) ∧
    ((∀ cf ∈ c4State.cfs, cf.logNumber ≤ c4State.corruptedLogNumber) →
      postWalCrossCheck c4Opts c4State = c4State) :=
  C4_sst_ahead_cross_check c4Opts c4State rfl (Or.inl rfl) rfl

/-! ### Claim C8: `WalFilter` batch rewrites -/

/-- C8 (confirmed): when the filter reports `batch_changed` for the current
record, a replacement batch with more updates than the original makes the
read loop abort with `NotSupported` (a hard return from `RecoverLogFiles`);
otherwise replay continues with the replacement batch whose sequence number
has been overwritten by the original batch's sequence number, applied to
the memtables by `InsertInto`. -/
theorem C8_wal_filter_rewrite (opts : ImmutableDBOptions) (f : WalFilter)
    (logNumber : Nat) (wired : Bool) (b nb : WriteBatch) (rest : List WalItem)
    (st : RecoveryState)
    (hf : opts.walFilter = some f)
    (hfr : f.logRecordFound logNumber b = (.kContinueProcessing, nb, true))
    (hsz : kWriteBatchHeader ≤ b.size)
    (hok : st.status.isOk = true)
    (hbf : st.stopReplayByWalFilter = false)
    (hsc : st.stopReplayForCorruption = false) :
    (b.count < nb.count →
      readLoop opts logNumber wired (WalItem.record b :: rest) st =
        { st with
          status := { code := .notSupported,
                      msg := "More than original # of records returned by Wal Filter "
                               ++ f.name },
          hardExit := true }) ∧
    (nb.count ≤ b.count →
      readLoop opts logNumber wired (WalItem.record b :: rest) st =
        readLoop opts logNumber wired rest
          { st with
            cfs := (insertInto { nb with sequence := b.sequence } logNumber st.cfs).1,
            nextSequence := (insertInto { nb with sequence := b.sequence } logNumber st.cfs).2 }) := by
  have hpit : pitContiguityCheck opts b st = st :=
    pitContiguityCheck_of_flag_false opts b st hsc
  have hsz' : ¬b.size < kWriteBatchHeader := Nat.not_lt.mpr hsz
  have hstep : walFilterStep opts f logNumber b = rewriteOrKeepBatch f.name b nb true := by
    unfold walFilterStep
    rw [hfr]
  constructor
  · intro hcnt
    simp [readLoop, hbf, hok, hsz', hpit, hsc, hf, hstep, rewriteOrKeepBatch, hcnt]
  · intro hcnt
    have hcnt' : ¬nb.count > b.count := Nat.not_lt.mpr hcnt
    simp [readLoop, hbf, hok, hsz', hpit, hsc, hf, hstep, rewriteOrKeepBatch, hcnt']

/-- A filter that rewrites every record to an empty batch (zero updates),
reporting `batch_changed`. -/
def c8Filter : WalFilter :=
  { name := "drop-all"
    logRecordFound := fun _ b => (.kContinueProcessing, { b with writes := [] }, true) }

def c8Opts : ImmutableDBOptions :=
  { walRecoveryMode := .kTolerateCorruptedTailRecords, paranoidChecks := true,
    walFilter := some c8Filter }

def c8State : RecoveryState := initialRecoveryState [⟨0, 0, []⟩] 0

/-- C8 witness: the rewrite path taken with a record of one update rewritten
to an empty batch (0 ≤ 1 updates), which is applied with the original
sequence number. -/
theorem C8_witness :
    readLoop c8Opts 4 true [WalItem.record ⟨20, 9, [(0, 1)]⟩] c8State =
      readLoop c8Opts 4 true []
        { c8State with
          cfs := (insertInto { size := 20, sequence := 9, writes := [] } 4 c8State.cfs).1,
          nextSequence :=
            (insertInto { size := 20, sequence := 9, writes := [] } 4 c8State.cfs).2 } :=
  (C8_wal_filter_rewrite c8Opts c8Filter 4 true ⟨20, 9, [(0, 1)]⟩ ⟨20, 9, []⟩ [] c8State
    rfl rfl (by decide) rfl rfl rfl).2 (by decide)

/-! ### Claim C5: resuming replay across a PIT corruption -/

def c5Opts : ImmutableDBOptions :=
  { walRecoveryMode := .kPointInTimeRecovery, paranoidChecks := true }

/-- A state in which an earlier WAL's corruption has set the stop flag, with
the next expected sequence being 10. -/
def c5State : RecoveryState :=
  { stopReplayForCorruption := true, corruptedLogFound := true, corruptedLogNumber := 4,
    nextSequence := 10, cfs := [⟨0, 0, []⟩], markedFileNumbers := [4], lastSequence := 9 }

/-- A later WAL whose first record has sequence 5 and whose second record
has sequence 10 — exactly the next expected sequence. -/
def c5Wal : List WalItem :=
  [.record ⟨20, 5, [(0, 1)]⟩, .record ⟨20, 10, [(0, 2)]⟩]

/-- C5 counterexample: the second record of the later WAL carries the next
expected sequence number 10, yet replay does not resume — only the first
record of the file is examined before the `break`, so the whole file is
dropped: the stop flag stays set and no record reaches the memtables,
contradicting the claim for a non-first record. -/
theorem C5_counterexample :
    c5Wal.get? 1 = some (WalItem.record ⟨20, 10, [(0, 2)]⟩) ∧
    c5State.nextSequence = 10 ∧
    (recoverSingleLog c5Opts 0 (6, c5Wal) c5State).stopReplayForCorruption = true ∧
    (recoverSingleLog c5Opts 0 (6, c5Wal) c5State).cfs = [⟨0, 0, []⟩] := by
  refine ⟨by decide, by decide, by decide, by decide⟩

/-- C5 (amended): under `kPointInTimeRecovery` with the stop flag set, only
the first well-formed record of a later WAL is examined: if its sequence
equals the next expected sequence, the stop flag is cleared and replay
resumes into that WAL with that record applied; otherwise the loop breaks
immediately, dropping this record and the rest of the WAL unapplied (each
subsequent WAL's first record is examined the same way). -/
theorem C5_pit_contiguous_resume (opts : ImmutableDBOptions) (logNumber : Nat)
    (wired : Bool) (b : WriteBatch) (rest : List WalItem) (st : RecoveryState)
    (hmode : opts.walRecoveryMode = WALRecoveryMode.kPointInTimeRecovery)
    (hfil : opts.walFilter = none)
    (hstop : st.stopReplayForCorruption = true)
    (hok : st.status.isOk = true)
    (hbf : st.stopReplayByWalFilter = false)
    (hsz : kWriteBatchHeader ≤ b.size) :
    (b.sequence = st.nextSequence →
      readLoop opts logNumber wired (WalItem.record b :: rest) st =
        readLoop opts logNumber wired rest
          { st with stopReplayForCorruption := false,
                    cfs := (insertInto b logNumber st.cfs).1,
                    nextSequence := (insertInto b logNumber st.cfs).2 }) ∧
    (b.sequence ≠ st.nextSequence →
      readLoop opts logNumber wired (WalItem.record b :: rest) st = st) := by
  have hsz' : ¬b.size < kWriteBatchHeader := Nat.not_lt.mpr hsz
  constructor
  · intro hseq
    have hpit : pitContiguityCheck opts b st = { st with stopReplayForCorruption := false } := by
      unfold pitContiguityCheck
      rw [if_pos ⟨hmode, hseq⟩]
    simp [readLoop, hbf, hok, hsz', hpit, hfil]
  · intro hseq
    have hpit : pitContiguityCheck opts b st = st := by
      unfold pitContiguityCheck
      rw [if_neg]
      intro hc
      exact hseq hc.2
    simp [readLoop, hbf, hok, hsz', hpit, hmode, hstop]

/-- C5 witness: a later WAL whose first record carries the next expected
sequence 10; the stop flag is cleared and its record is applied. -/
theorem C5_witness :
    readLoop c5Opts 6 true [WalItem.record ⟨20, 10, [(0, 2)]⟩] c5State =
      readLoop c5Opts 6 true []
        { c5State with stopReplayForCorruption := false,
                       cfs := (insertInto ⟨20, 10, [(0, 2)]⟩ 6 c5State.cfs).1,
                       nextSequence := (insertInto ⟨20, 10, [(0, 2)]⟩ 6 c5State.cfs).2 } :=
  (C5_pit_contiguous_resume c5Opts 6 true ⟨20, 10, [(0, 2)]⟩ [] c5State
    rfl rfl rfl rfl rfl (by decide)).1 rfl

/-! ### Claim C2: the `min_log_number_to_keep` filter and file-number marks -/

def c2Opts : ImmutableDBOptions :=
  { walRecoveryMode := .kTolerateCorruptedTailRecords, paranoidChecks := true }

/-- Two WALs: number 3 (below the boundary 5) and number 5 (exactly the
boundary). -/
def c2Logs : List (Nat × List WalItem) :=
  [(3, [.record ⟨20, 1, [(0, 3)]⟩]), (5, [.record ⟨20, 10, [(0, 9)]⟩])]

/-- C2 counterexample: with `min_log_number_to_keep = 5`, the WAL numbered
exactly 5 is replayed, not skipped — its write lands in the memtable — and
the skipped WAL 3 never receives a `MarkFileNumberUsed` call: the marked
numbers are `[5, 6]` (the replayed file and `max_log_number + 1`), with 3
absent. Both halves of the claim fail at this input. -/
theorem C2_counterexample :
    (RecoverLogFiles c2Opts 5 c2Logs (initialRecoveryState [⟨0, 0, []⟩] 0)).cfs =
      [⟨0, 0, [(9, 10)]⟩] ∧
    (RecoverLogFiles c2Opts 5 c2Logs (initialRecoveryState [⟨0, 0, []⟩] 0)).markedFileNumbers =
      [5, 6] := by
  refine ⟨by decide, by decide⟩

theorem markCurrentLog_stopReplayByWalFilter (logNumber : Nat) (st : RecoveryState) :
    (markCurrentLog logNumber st).stopReplayByWalFilter = st.stopReplayByWalFilter := rfl

theorem afterLoopSteps_markedFileNumbers (opts : ImmutableDBOptions) (logNumber : Nat)
    (st : RecoveryState) :
    (afterLoopSteps opts logNumber st).markedFileNumbers = st.markedFileNumbers := by
  unfold afterLoopSteps
  split
  · rfl
  · split
    · rw [afterFileStatusPolicy_markedFileNumbers]
    · rw [updateLastSequence_markedFileNumbers, afterFileStatusPolicy_markedFileNumbers]

/-- C2 (amended): a WAL is skipped exactly when its number is strictly below
`min_log_number_to_keep` (the boundary file itself is replayed), and a
skipped file leaves the state — including the marked file numbers —
untouched; `MarkFileNumberUsed` is called on every non-skipped file's
number; the global counter is still pushed past all files because, when the
loop ends cleanly, `max(log_numbers) + 1` is marked as used. -/
theorem C2_skip_boundary_and_marks (opts : ImmutableDBOptions) (minLogNumber n : Nat)
    (items : List WalItem) (st : RecoveryState) (logNumbers : List Nat) (lastLog : Nat) :
    (n < minLogNumber → recoverSingleLog opts minLogNumber (n, items) st = st) ∧
    (st.hardExit = false → minLogNumber ≤ n →
      n ∈ (recoverSingleLog opts minLogNumber (n, items) st).markedFileNumbers) ∧
    (st.hardExit = false → st.status.isOk = true → logNumbers.getLast? = some lastLog →
      (finalizeRecovery logNumbers st).markedFileNumbers =
        st.markedFileNumbers ++ [lastLog + 1]) := by
  refine ⟨?_, ?_, ?_⟩
  · intro h
    unfold recoverSingleLog
    by_cases hhe : st.hardExit = true
    · rw [if_pos hhe]
    · rw [if_neg hhe, if_pos h]
  · intro hhe hge
    unfold recoverSingleLog
    rw [if_neg (by simp [hhe]), if_neg (by simpa using Nat.not_lt.mpr hge)]
    have hmem : n ∈ (markCurrentLog n st).markedFileNumbers := by
      simp [markCurrentLog]
    split
    · exact hmem
    · rw [afterLoopSteps_markedFileNumbers, readLoop_markedFileNumbers]
      exact hmem
  · intro hhe hok hgl
    unfold finalizeRecovery
    rw [if_neg (by simp [hhe]), hgl]
    simp [hok]

/-- C2 witness: the amended statement at the boundary file 5 with
`min_log_number_to_keep = 5`: the file's number is marked. -/
theorem C2_witness :
    5 ∈ (recoverSingleLog c2Opts 5 (5, [WalItem.record ⟨20, 10, [(0, 9)]⟩])
        (initialRecoveryState [⟨0, 0, []⟩] 0)).markedFileNumbers :=
  (C2_skip_boundary_and_marks c2Opts 5 5 [WalItem.record ⟨20, 10, [(0, 9)]⟩]
    (initialRecoveryState [⟨0, 0, []⟩] 0) [5] 5).2.1 rfl (by decide)

/-! ### Claim C9: memtables are cleared when replay fails -/

/-- C9 (confirmed): when `RecoverLogFiles` returns a non-OK status,
`DBImpl::Recover` replaces every column family's memtable with a fresh
empty one before propagating that same status to the caller. -/
theorem C9_clear_memtables_on_failed_replay (opts : ImmutableDBOptions)
    (minLogNumber : Nat) (logs : List (Nat × List WalItem))
    (cfs : List ColumnFamilyData) (lastSequence : Nat)
    (hne : logs.isEmpty = false)
    (hfail : (RecoverLogFiles opts minLogNumber logs
        (initialRecoveryState cfs lastSequence)).status.isOk = false) :
    (Recover opts minLogNumber logs cfs lastSequence).status =
      (RecoverLogFiles opts minLogNumber logs
        (initialRecoveryState cfs lastSequence)).status ∧
    ∀ cf ∈ (Recover opts minLogNumber logs cfs lastSequence).cfs, cf.mem = [] := by
  unfold Recover
  rw [hne, if_neg (by simp), if_neg (by simp [hfail])]
  refine ⟨rfl, ?_⟩
  intro cf hcf
  simp only [List.mem_map] at hcf
  obtain ⟨cf', _, rfl⟩ := hcf
  rfl

def c9Opts : ImmutableDBOptions :=
  { walRecoveryMode := .kAbsoluteConsistency, paranoidChecks := true }

/-- One WAL with a good record followed by a corrupt stretch: under
`kAbsoluteConsistency` with paranoid checks, replay fails after having
applied the first record to the memtable. -/
def c9Logs : List (Nat × List WalItem) :=
  [(4, [.record ⟨20, 1, [(0, 7)]⟩, .corruptChunk 5])]

/-- C9 witness: the failing absolute-consistency run; the error propagates
unchanged and the partially filled memtable is cleared. -/
theorem C9_witness :
    (Recover c9Opts 0 c9Logs [⟨0, 0, []⟩] 0).status =
      (RecoverLogFiles c9Opts 0 c9Logs (initialRecoveryState [⟨0, 0, []⟩] 0)).status ∧
    ∀ cf ∈ (Recover c9Opts 0 c9Logs [⟨0, 0, []⟩] 0).cfs, cf.mem = [] :=
  C9_clear_memtables_on_failed_replay c9Opts 0 c9Logs [⟨0, 0, []⟩] 0 (by decide) (by decide)

/-! ### Claim C10: replay always succeeds when `paranoid_checks` is off -/

/-- A state in which replay can still proceed normally: OK status, no
pending return, no stop flags. -/
def cleanRun (st : RecoveryState) : Prop :=
  st.status.isOk = true ∧ st.hardExit = false ∧ st.stopReplayByWalFilter = false ∧
    st.stopReplayForCorruption = false

theorem cleanRun_initial (cfs : List ColumnFamilyData) (lastSequence : Nat) :
    cleanRun (initialRecoveryState cfs lastSequence) :=
  ⟨rfl, rfl, rfl, rfl⟩

theorem readLoop_cleanRun (opts : ImmutableDBOptions) (logNumber : Nat)
    (hfil : opts.walFilter = none) :
    ∀ (items : List WalItem) (st : RecoveryState), cleanRun st →
      cleanRun (readLoop opts logNumber false items st) := by
  intro items
  induction items with
  | nil => intro st h; exact h
  | cons item rest ih =>
    intro st h
    obtain ⟨hok, hhe, hbf, hsc⟩ := h
    cases item with
    | corruptChunk n =>
        simp only [readLoop]
        rw [if_neg (by simp [hbf, hok]), reporterCorruption_unwired]
        exact ih st ⟨hok, hhe, hbf, hsc⟩
    | record b =>
        simp only [readLoop]
        rw [if_neg (by simp [hbf, hok])]
        by_cases hsz : b.size < kWriteBatchHeader
        · rw [if_pos hsz, reporterCorruption_unwired]
          exact ih st ⟨hok, hhe, hbf, hsc⟩
        · rw [if_neg hsz, pitContiguityCheck_of_flag_false opts b st hsc,
            if_neg (by simp [hsc]), hfil]
          exact ih _ ⟨hok, hhe, hbf, hsc⟩

theorem afterFileStatusPolicy_of_ok (opts : ImmutableDBOptions) (logNumber : Nat)
    (st : RecoveryState) (hok : st.status.isOk = true) :
    afterFileStatusPolicy opts logNumber st = st := by
  unfold afterFileStatusPolicy
  rw [if_pos hok]

theorem updateLastSequence_cleanRun (st : RecoveryState) (h : cleanRun st) :
    cleanRun (updateLastSequence st) := by
  unfold updateLastSequence
  split
  · exact h
  · exact h

theorem recoverSingleLog_cleanRun (opts : ImmutableDBOptions) (minLogNumber : Nat)
    (log : Nat × List WalItem) (st : RecoveryState)
    (hp : opts.paranoidChecks = false) (hfil : opts.walFilter = none)
    (h : cleanRun st) : cleanRun (recoverSingleLog opts minLogNumber log st) := by
  obtain ⟨hok, hhe, hbf, hsc⟩ := h
  unfold recoverSingleLog
  rw [if_neg (by simp [hhe])]
  split
  · exact ⟨hok, hhe, hbf, hsc⟩
  · rw [if_neg (by simp [markCurrentLog_stopReplayByWalFilter, hbf])]
    have hw : reporterStatusWired opts = false := by
      simp [reporterStatusWired, hp]
    rw [hw]
    obtain ⟨h2ok, h2he, h2bf, h2sc⟩ :=
      readLoop_cleanRun opts log.1 hfil log.2 (markCurrentLog log.1 st)
        ⟨hok, hhe, hbf, hsc⟩
    unfold afterLoopSteps
    rw [if_neg (by simp [h2he]),
      afterFileStatusPolicy_of_ok opts log.1 _ h2ok,
      if_neg (by simp [h2he])]
    exact updateLastSequence_cleanRun _ ⟨h2ok, h2he, h2bf, h2sc⟩

theorem recoverAllLogs_cleanRun (opts : ImmutableDBOptions) (minLogNumber : Nat)
    (hp : opts.paranoidChecks = false) (hfil : opts.walFilter = none) :
    ∀ (logs : List (Nat × List WalItem)) (st : RecoveryState), cleanRun st →
      cleanRun (recoverAllLogs opts minLogNumber logs st) := by
  intro logs
  induction logs with
  | nil => intro st h; exact h
  | cons l rest ih =>
    intro st h
    unfold recoverAllLogs at ih ⊢
    simp only [List.foldl_cons]
    exact ih _ (recoverSingleLog_cleanRun opts minLogNumber l st hp hfil h)

/-- C10 (confirmed): when `paranoid_checks` is false, the log reporter's
status pointer is left unwired — corruption reports from the log reader
never touch the recovery status — and, absent a `WalFilter`, `RecoverLogFiles`
returns OK for every recovery mode (including `kAbsoluteConsistency` and
`kTolerateCorruptedTailRecords`) and every WAL content: the bad bytes are
dropped and replay runs to a successful completion. -/
theorem C10_paranoid_off_ignores_corruption (opts : ImmutableDBOptions)
    (minLogNumber : Nat) (logs : List (Nat × List WalItem))
    (cfs : List ColumnFamilyData) (lastSequence : Nat)
    (hp : opts.paranoidChecks = false) (hfil : opts.walFilter = none) :
    reporterStatusWired opts = false ∧
    (RecoverLogFiles opts minLogNumber logs
      (initialRecoveryState cfs lastSequence)).status.isOk = true := by
  have hw : reporterStatusWired opts = false := by
    simp [reporterStatusWired, hp]
  refine ⟨hw, ?_⟩
  obtain ⟨hok, hhe, hbf, hsc⟩ :=
    recoverAllLogs_cleanRun opts minLogNumber hp hfil logs
      (initialRecoveryState cfs lastSequence) (cleanRun_initial cfs lastSequence)
  unfold RecoverLogFiles
  rw [if_neg (by simp [hhe])]
  have hcc : postWalCrossCheck opts
      (recoverAllLogs opts minLogNumber logs (initialRecoveryState cfs lastSequence)) =
      recoverAllLogs opts minLogNumber logs (initialRecoveryState cfs lastSequence) := by
    unfold postWalCrossCheck
    rw [if_neg]
    intro hc
    rw [hsc] at hc
    exact absurd hc.1 (by simp)
  rw [hcc]
  unfold finalizeRecovery
  rw [if_neg (by simp [hhe])]
  cases hgl : (logs.map Prod.fst).getLast? with
  | none => exact hok
  | some m => simp [hok]

def c10Opts : ImmutableDBOptions :=
  { walRecoveryMode := .kAbsoluteConsistency, paranoidChecks := false }

/-- C10 witness: with paranoid checks off, even `kAbsoluteConsistency` mode
replays a WAL containing a corrupt stretch to a successful completion. -/
theorem C10_witness :
    reporterStatusWired c10Opts = false ∧
    (RecoverLogFiles c10Opts 0 [(4, [.corruptChunk 9, .record ⟨20, 1, [(0, 7)]⟩])]
      (initialRecoveryState [⟨0, 0, []⟩] 0)).status.isOk = true :=
  C10_paranoid_off_ignores_corruption c10Opts 0
    [(4, [.corruptChunk 9, .record ⟨20, 1, [(0, 7)]⟩])] [⟨0, 0, []⟩] 0 rfl rfl

/-! ### Claim C1: the go-live dummy batch -/

def c1Opts : ImmutableDBOptions :=
  { walRecoveryMode := .kTolerateCorruptedTailRecords, paranoidChecks := true }

/-- A clean reopen: one WAL whose single record replays without any
corruption. -/
def c1Logs : List (Nat × List WalItem) :=
  [(4, [.record ⟨20, 1, [(0, 7)]⟩])]

/-- C1 counterexample: a WAL record is replayed (the key lands in the
memtable and the open succeeds), yet no dummy batch is written to the new
WAL — `*recovered_seq` is only set when a corrupted log was found (line
557), which never happens in this clean replay, so it stays
`kMaxSequenceNumber` and the go-live write at lines 1526-1533 is skipped.
The claim asserts the dummy batch is written on every open that replayed a
record. -/
theorem C1_counterexample :
    (OpenRecoverAndGoLive c1Opts 0 c1Logs [⟨0, 0, []⟩] 0).status.isOk = true ∧
    (OpenRecoverAndGoLive c1Opts 0 c1Logs [⟨0, 0, []⟩] 0).cfs = [⟨0, 0, [(7, 1)]⟩] ∧
    (OpenRecoverAndGoLive c1Opts 0 c1Logs [⟨0, 0, []⟩] 0).dummyBatchWritten = false := by
  refine ⟨by decide, by decide, by decide⟩

theorem Recover_recoveredSeq (opts : ImmutableDBOptions) (minLogNumber : Nat)
    (logs : List (Nat × List WalItem)) (cfs : List ColumnFamilyData)
    (lastSequence : Nat) :
    (Recover opts minLogNumber logs cfs lastSequence).recoveredSeq =
      if logs.isEmpty then kMaxSequenceNumber
      else if (RecoverLogFiles opts minLogNumber logs
          (initialRecoveryState cfs lastSequence)).corruptedLogFound then
        (RecoverLogFiles opts minLogNumber logs
          (initialRecoveryState cfs lastSequence)).nextSequence
      else kMaxSequenceNumber := by
  unfold Recover
  by_cases he : logs.isEmpty = true
  · rw [if_pos he, if_pos he]
  · rw [if_neg he, if_neg he]
    split <;> rfl

theorem Recover_recoveredSeq_ne_iff (opts : ImmutableDBOptions) (minLogNumber : Nat)
    (logs : List (Nat × List WalItem)) (cfs : List ColumnFamilyData)
    (lastSequence : Nat) :
    (Recover opts minLogNumber logs cfs lastSequence).recoveredSeq ≠ kMaxSequenceNumber ↔
      (logs.isEmpty = false ∧
       (RecoverLogFiles opts minLogNumber logs
          (initialRecoveryState cfs lastSequence)).corruptedLogFound = true ∧
       (RecoverLogFiles opts minLogNumber logs
          (initialRecoveryState cfs lastSequence)).nextSequence ≠ kMaxSequenceNumber) := by
  rw [Recover_recoveredSeq]
  by_cases he : logs.isEmpty = true <;>
    by_cases hcf : (RecoverLogFiles opts minLogNumber logs
        (initialRecoveryState cfs lastSequence)).corruptedLogFound = true <;>
      simp [he, hcf]

theorem Recover_status_eq_open_status (opts : ImmutableDBOptions) (minLogNumber : Nat)
    (logs : List (Nat × List WalItem)) (cfs : List ColumnFamilyData)
    (lastSequence : Nat) :
    (OpenRecoverAndGoLive opts minLogNumber logs cfs lastSequence).status =
      (Recover opts minLogNumber logs cfs lastSequence).status := by
  unfold OpenRecoverAndGoLive
  split
  · rfl
  · split <;> rfl

/-- C1 (amended): on a successful open, the go-live dummy empty batch is
written if and only if `recovered_seq` differs from `kMaxSequenceNumber`,
and it carries `recovered_seq` as its sequence number; `recovered_seq`
differs from `kMaxSequenceNumber` exactly when replay found a corrupted log
(the point-in-time stop, line 557) after having applied at least one record
— not on every open that replayed a record. -/
theorem C1_dummy_write_amended (opts : ImmutableDBOptions) (minLogNumber : Nat)
    (logs : List (Nat × List WalItem)) (cfs : List ColumnFamilyData)
    (lastSequence : Nat)
    (hok : (OpenRecoverAndGoLive opts minLogNumber logs cfs lastSequence).status.isOk = true) :
    ((OpenRecoverAndGoLive opts minLogNumber logs cfs lastSequence).dummyBatchWritten = true ↔
        (Recover opts minLogNumber logs cfs lastSequence).recoveredSeq ≠ kMaxSequenceNumber) ∧
    ((OpenRecoverAndGoLive opts minLogNumber logs cfs lastSequence).dummyBatchWritten = true →
        (OpenRecoverAndGoLive opts minLogNumber logs cfs lastSequence).dummyBatchSequence =
          (Recover opts minLogNumber logs cfs lastSequence).recoveredSeq) ∧
    ((Recover opts minLogNumber logs cfs lastSequence).recoveredSeq ≠ kMaxSequenceNumber ↔
        (logs.isEmpty = false ∧
         (RecoverLogFiles opts minLogNumber logs
            (initialRecoveryState cfs lastSequence)).corruptedLogFound = true ∧
         (RecoverLogFiles opts minLogNumber logs
            (initialRecoveryState cfs lastSequence)).nextSequence ≠ kMaxSequenceNumber)) := by
  have hRok : (Recover opts minLogNumber logs cfs lastSequence).status.isOk = true := by
    rw [Recover_status_eq_open_status] at hok
    exact hok
  refine ⟨?_, ?_, Recover_recoveredSeq_ne_iff opts minLogNumber logs cfs lastSequence⟩
  · unfold OpenRecoverAndGoLive
    rw [if_neg (by simp [hRok])]
    by_cases hrs : (Recover opts minLogNumber logs cfs lastSequence).recoveredSeq ≠
        kMaxSequenceNumber
    · rw [if_pos hrs]
      simpa using hrs
    · rw [if_neg hrs]
      simpa using hrs
  · unfold OpenRecoverAndGoLive
    rw [if_neg (by simp [hRok])]
    by_cases hrs : (Recover opts minLogNumber logs cfs lastSequence).recoveredSeq ≠
        kMaxSequenceNumber
    · rw [if_pos hrs]
      intro _
      rfl
    · rw [if_neg hrs]
      intro h
      exact absurd h (by simp)

def c1wOpts : ImmutableDBOptions :=
  { walRecoveryMode := .kPointInTimeRecovery, paranoidChecks := true }

/-- A WAL whose record at sequence 1 replays and whose tail is corrupt:
under point-in-time recovery the stop flag is set, `corrupted_log_found`
becomes true, and the open succeeds having recovered sequence cursor 2. -/
def c1wLogs : List (Nat × List WalItem) :=
  [(4, [.record ⟨20, 1, [(0, 7)]⟩, .corruptChunk 5])]

/-- C1 witness: the amended rule at a point-in-time recovery stopped by a
corrupted tail; here the dummy batch is written. -/
theorem C1_witness :
    ((OpenRecoverAndGoLive c1wOpts 0 c1wLogs [⟨0, 0, []⟩] 0).dummyBatchWritten = true ↔
        (Recover c1wOpts 0 c1wLogs [⟨0, 0, []⟩] 0).recoveredSeq ≠ kMaxSequenceNumber) ∧
    ((OpenRecoverAndGoLive c1wOpts 0 c1wLogs [⟨0, 0, []⟩] 0).dummyBatchWritten = true →
        (OpenRecoverAndGoLive c1wOpts 0 c1wLogs [⟨0, 0, []⟩] 0).dummyBatchSequence =
          (Recover c1wOpts 0 c1wLogs [⟨0, 0, []⟩] 0).recoveredSeq) ∧
    ((Recover c1wOpts 0 c1wLogs [⟨0, 0, []⟩] 0).recoveredSeq ≠ kMaxSequenceNumber ↔
        (c1wLogs.isEmpty = false ∧
         (RecoverLogFiles c1wOpts 0 c1wLogs
            (initialRecoveryState [⟨0, 0, []⟩] 0)).corruptedLogFound = true ∧
         (RecoverLogFiles c1wOpts 0 c1wLogs
            (initialRecoveryState [⟨0, 0, []⟩] 0)).nextSequence ≠ kMaxSequenceNumber)) :=
  C1_dummy_write_amended c1wOpts 0 c1wLogs [⟨0, 0, []⟩] 0 (by decide)

end RocksDBModel
